import Mathlib

/-
  Shallow embedding of the remote data-service access facade of
  dhg-source-viewer (src/src/services/supabase_service.py,
  src/src/services/exceptions.py, src/src/services/base_service.py).

  Backend network calls are represented by explicit oracle functions from
  the fully built query value to an outcome (either an exception message
  or a response object); the Boolean component of each operation's result
  records whether the backend oracle was consulted (a network call issued).
-/

namespace DSV

/-- Python-level values appearing in rows, filter values and update payloads. -/
inductive PyValue
  | pbool (b : Bool)
  | pstr (s : String)
  | pint (n : Int)
  | pnone
  deriving DecidableEq, Repr

/-- Kinds of the exception taxonomy of the repository: exceptions.py
(ApplicationError hierarchy), base_service.py (ServiceError hierarchy),
Python builtins (ValueError, AttributeError) and raw transport errors. -/
inductive ErrKind
  | valueError
  | transportError
  | apiError
  | supabaseError
  | connectionError
  | queryError
  | authenticationError
  | authorizationError
  | notFoundError
  | duplicateError
  | validationError
  | databaseError
  | storageAuthError
  | storagePermissionError
  | storageQuotaError
  | storageNotFoundError
  | storageValidationError
  | storageError
  deriving DecidableEq, Repr

/-- An exception object: kind, message, and the optional chained
original_error (exceptions.py ApplicationError.__init__). -/
inductive PyExc
  | mk (kind : ErrKind) (message : String) (original : Option PyExc)

def PyExc.kind : PyExc → ErrKind
  | .mk k _ _ => k

def PyExc.message : PyExc → String
  | .mk _ m _ => m

def PyExc.original : PyExc → Option PyExc
  | .mk _ _ o => o

/-- A row returned by the backend: a mapping from column names to values. -/
abbrev Row := List (String × PyValue)

/-- One applied backend query-builder primitive (query.eq, query.neq, ...). -/
inductive FilterStep
  | opEq (c : String) (v : PyValue)
  | opNeq (c : String) (v : PyValue)
  | opLt (c : String) (v : PyValue)
  | opLte (c : String) (v : PyValue)
  | opGt (c : String) (v : PyValue)
  | opGte (c : String) (v : PyValue)
  | opLike (c : String) (v : PyValue)
  | opIlike (c : String) (v : PyValue)
  | opIs (c : String) (v : PyValue)
  | opIn (c : String) (v : PyValue)
  | opContains (c : String) (v : PyValue)
  | opContainedBy (c : String) (v : PyValue)
  | opTextSearch (c : String) (v : PyValue)
  deriving DecidableEq, Repr

/-- SupabaseService.ALLOWED_OPERATORS, in source order. -/
def ALLOWED_OPERATORS : List String :=
  ["eq", "neq", "gt", "gte", "lt", "lte", "like", "ilike", "is", "in",
   "contains", "contained_by", "text_search"]

/-- The if/elif operator-dispatch chain shared verbatim by
select_from_table and update_table: one operator string maps to one
builder primitive, anything else raises ValueError. -/
def applyFilter (steps : List FilterStep) (column operator : String)
    (value : PyValue) : Except String (List FilterStep) :=
  if operator = "eq" then .ok (steps ++ [.opEq column value])
  else if operator = "neq" then .ok (steps ++ [.opNeq column value])
  else if operator = "lt" then .ok (steps ++ [.opLt column value])
  else if operator = "lte" then .ok (steps ++ [.opLte column value])
  else if operator = "gt" then .ok (steps ++ [.opGt column value])
  else if operator = "gte" then .ok (steps ++ [.opGte column value])
  else if operator = "like" then .ok (steps ++ [.opLike column value])
  else if operator = "ilike" then .ok (steps ++ [.opIlike column value])
  else if operator = "is" then .ok (steps ++ [.opIs column value])
  else if operator = "in" then .ok (steps ++ [.opIn column value])
  else if operator = "contains" then .ok (steps ++ [.opContains column value])
  else if operator = "contained_by" then
    .ok (steps ++ [.opContainedBy column value])
  else if operator = "text_search" then
    .ok (steps ++ [.opTextSearch column value])
  else .error ("Unsupported operator: " ++ operator)

/-- The operator chain of delete_from_table: the source handles only the
eq operator and raises ValueError for every other operator string. -/
def applyFilterDelete (steps : List FilterStep) (column operator : String)
    (value : PyValue) : Except String (List FilterStep) :=
  if operator = "eq" then .ok (steps ++ [.opEq column value])
  else .error ("Unsupported operator: " ++ operator)

/-- The filter loop of select_from_table and update_table: filters are
applied in list order, the first unsupported operator raises. -/
def applyFilters : List FilterStep → List (String × String × PyValue) →
    Except String (List FilterStep)
  | steps, [] => .ok steps
  | steps, (c, op, v) :: rest =>
      match applyFilter steps c op v with
      | .error m => .error m
      | .ok steps' => applyFilters steps' rest

/-- The filter loop of delete_from_table. -/
def applyFiltersDelete : List FilterStep → List (String × String × PyValue) →
    Except String (List FilterStep)
  | steps, [] => .ok steps
  | steps, (c, op, v) :: rest =>
      match applyFilterDelete steps c op v with
      | .error m => .error m
      | .ok steps' => applyFiltersDelete steps' rest

/-- The fields argument of select_from_table: the all-columns sentinel
string or a collection of column names. -/
inductive Fields
  | star
  | cols (cs : List String)

/-- A fully built select statement handed to the backend. -/
structure SelectQuery where
  table : String
  selectArg : String
  steps : List FilterStep

/-- Outcome of a backend call: either the transport raises, or it returns
a response value. -/
inductive ExecOutcome (ρ : Type)
  | raises (msg : String)
  | returns (resp : ρ)

/-- A select response object; dataAttr is none when the object has no
data attribute. -/
structure SelectResp where
  dataAttr : Option (List Row)

/-- Query construction of select_from_table: with the sentinel the
filters are never consulted; otherwise the column names are joined and
the filter loop runs. -/
def buildSelectQuery (table : String) (fields : Fields)
    (where_filters : List (String × String × PyValue)) :
    Except String SelectQuery :=
  match fields with
  | .star => .ok ⟨table, "*", []⟩
  | .cols cs =>
      match applyFilters [] where_filters with
      | .error m => .error m
      | .ok steps => .ok ⟨table, String.intercalate "," cs, steps⟩

/-- Python's not table.strip(): true when the string is empty or all
whitespace. -/
def stripEmpty (s : String) : Bool :=
  s.data.all Char.isWhitespace

/-- SupabaseService.select_from_table. The second component records
whether the backend oracle was consulted (query.execute awaited). -/
def select_from_table (exec : SelectQuery → ExecOutcome (Option SelectResp))
    (table_name : String) (fields : Fields)
    (where_filters : List (String × String × PyValue)) :
    Except PyExc (Option (List Row)) × Bool :=
  if stripEmpty table_name then
    (.error (PyExc.mk .valueError "Table name must be a non-empty string" none),
     false)
  else
    match buildSelectQuery table_name fields where_filters with
    | .error m =>
        (.error (PyExc.mk .queryError
            ("Failed to select from table " ++ table_name)
            (some (PyExc.mk .valueError m none))), false)
    | .ok q =>
        match exec q with
        | .raises m =>
            (.error (PyExc.mk .queryError
                ("Failed to select from table " ++ table_name)
                (some (PyExc.mk .transportError m none))), true)
        | .returns none => (.ok none, true)
        | .returns (some r) =>
            match r.dataAttr with
            | none => (.ok none, true)
            | some rows => (.ok (some rows), true)

/-- SupabaseService._serialize_data: booleans become the lowercase text
literals, every other value passes through unchanged, keys are kept. -/
def serialize_data : List (String × PyValue) → List (String × PyValue)
  | [] => []
  | (k, v) :: rest =>
      (k, match v with
          | .pbool b => .pstr (if b then "true" else "false")
          | w => w) :: serialize_data rest

/-- A fully built update statement: the serialized payload and the
applied filter primitives. -/
structure UpdateCall where
  table : String
  payload : List (String × PyValue)
  steps : List FilterStep

/-- SupabaseService.update_table: serializes the payload, applies the
shared operator chain, executes, and returns the first updated row or
none; failures are wrapped into SupabaseQueryError. -/
def update_table (exec : UpdateCall → ExecOutcome (List Row))
    (table_name : String) (update_fields : List (String × PyValue))
    (where_filters : List (String × String × PyValue)) :
    Except PyExc (Option Row) × Bool :=
  if table_name = "" then
    (.error (PyExc.mk .supabaseError "Table name is required" none), false)
  else
    match applyFilters [] where_filters with
    | .error m =>
        (.error (PyExc.mk .queryError "Failed to update table"
            (some (PyExc.mk .valueError m none))), false)
    | .ok steps =>
        match exec ⟨table_name, serialize_data update_fields, steps⟩ with
        | .raises m =>
            (.error (PyExc.mk .queryError "Failed to update table"
                (some (PyExc.mk .transportError m none))), true)
        | .returns rows => (.ok rows.head?, true)

/-- A fully built delete statement handed to the backend. -/
structure DeleteCall where
  table : String
  steps : List FilterStep

/-- A delete response object; dataAttr is none when the object has no
data attribute. -/
structure DelResp where
  dataAttr : Option (List Row)

/-- SupabaseService.delete_from_table: applies the delete operator chain,
executes, and returns the Python truth value of
response-and-hasattr-data; transport failures become SupabaseQueryError. -/
def delete_from_table (exec : DeleteCall → ExecOutcome (Option DelResp))
    (table_name : String)
    (where_filters : List (String × String × PyValue)) :
    Except PyExc Bool × Bool :=
  if table_name = "" then
    (.error (PyExc.mk .supabaseError "Table name is required" none), false)
  else
    match applyFiltersDelete [] where_filters with
    | .error m =>
        (.error (PyExc.mk .queryError "Failed to delete from table"
            (some (PyExc.mk .valueError m none))), false)
    | .ok steps =>
        match exec ⟨table_name, steps⟩ with
        | .raises m =>
            (.error (PyExc.mk .queryError "Failed to delete from table"
                (some (PyExc.mk .transportError m none))), true)
        | .returns none => (.ok false, true)
        | .returns (some r) => (.ok r.dataAttr.isSome, true)

/-- The object returned by auth.sign_in_with_password: a user identity
and a session token, each possibly absent. -/
structure AuthResponse where
  user : Option String
  session : Option String

/-- SupabaseService.login. The sessionState argument is the facade's
session attribute before the call; the second component of the result is
its value after the call. A falsy or user-less response raises the inner
SupabaseAuthenticationError, which the enclosing handler catches and
re-wraps before propagating. -/
def login (exec : ExecOutcome (Option AuthResponse))
    (sessionState : Option String) (email password : String) :
    Except PyExc Bool × Option String :=
  if email = "" ∨ password = "" then
    (.error (PyExc.mk .supabaseError "Email and password are required" none),
     sessionState)
  else
    match exec with
    | .raises m =>
        (.error (PyExc.mk .authenticationError "Authentication failed"
            (some (PyExc.mk .transportError m none))), sessionState)
    | .returns none =>
        (.error (PyExc.mk .authenticationError "Authentication failed"
            (some (PyExc.mk .authenticationError
                "Login failed - invalid credentials" none))), sessionState)
    | .returns (some r) =>
        match r.user with
        | none =>
            (.error (PyExc.mk .authenticationError "Authentication failed"
                (some (PyExc.mk .authenticationError
                    "Login failed - invalid credentials" none))), sessionState)
        | some _ => (.ok true, r.session)

/-- The object returned by auth.get_user: userAttr is none when the
response object lacks a user attribute, otherwise it holds the possibly
absent user value. -/
structure GetUserResp where
  userAttr : Option (Option String)

/-- SupabaseService.get_user: the bare except clause turns every
exception into a plain None return. -/
def get_user (exec : ExecOutcome (Option GetUserResp)) :
    Except PyExc (Option String) :=
  match exec with
  | .raises _ => .ok none
  | .returns none => .ok none
  | .returns (some r) =>
      match r.userAttr with
      | none => .ok none
      | some u => .ok u

/-- SupabaseService.create_search_index: two execute_sql RPC calls (the
SQL payload strings are abstracted); any exception in either call is
logged and the method returns False instead of raising. -/
def create_search_index (execAlter execIndex : ExecOutcome Unit) :
    Except PyExc Bool :=
  match execAlter with
  | .raises _ => .ok false
  | .returns _ =>
      match execIndex with
      | .raises _ => .ok false
      | .returns _ => .ok true

/-- Whether pat begins the character list s. -/
def prefMatch : List Char → List Char → Bool
  | [], _ => true
  | _ :: _, [] => false
  | p :: ps, c :: cs => (p == c) && prefMatch ps cs

/-- Whether pat occurs contiguously anywhere in the character list s. -/
def subMatch (pat : List Char) : List Char → Bool
  | [] => pat.isEmpty
  | c :: cs => prefMatch pat (c :: cs) || subMatch pat cs

/-- Python's in operator on strings: substring containment. -/
def strContainsSub (s pat : String) : Bool :=
  subMatch pat.data s.data

/-- exceptions.map_storage_error: classifies a storage error by
case-insensitive substring match on its message, first match wins,
always chaining the input as original_error. -/
def map_storage_error (e : PyExc) : PyExc :=
  if strContainsSub e.message.toLower "authentication" then
    PyExc.mk .storageAuthError "Storage authentication failed" (some e)
  else if strContainsSub e.message.toLower "permission" then
    PyExc.mk .storagePermissionError "Insufficient storage permissions" (some e)
  else if strContainsSub e.message.toLower "quota" then
    PyExc.mk .storageQuotaError "Storage quota exceeded" (some e)
  else if strContainsSub e.message.toLower "not found" then
    PyExc.mk .storageNotFoundError "Storage resource not found" (some e)
  else if strContainsSub e.message.toLower "validation" then
    PyExc.mk .storageValidationError "Storage validation failed" (some e)
  else
    PyExc.mk .storageError "Storage operation failed" (some e)

/-- The low-level exceptions BaseService.handle_error distinguishes: a
postgrest APIError carrying a code and an optional details dict, an
exception already in the typed ServiceError hierarchy, or anything else. -/
inductive LowError
  | apiErr (code : String) (details : Option (List (String × String)))
  | typed (e : PyExc)
  | other (msg : String)

/-- The exception object a LowError stands for, used for chaining. -/
def LowError.asExc : LowError → PyExc
  | .apiErr code _ => PyExc.mk .apiError ("APIError " ++ code) none
  | .typed e => e
  | .other m => PyExc.mk .transportError m none

/-- BaseService.ERROR_CODES: the fixed Postgres code to exception-kind
table. -/
def ERROR_CODES : List (String × ErrKind) :=
  [("23505", .duplicateError), ("23503", .validationError),
   ("23502", .validationError), ("22P02", .validationError),
   ("42P01", .databaseError)]

/-- BaseService.handle_error: APIErrors are mapped through the code
table, exceptions already in the ServiceError hierarchy pass through
unchanged, anything else becomes a DatabaseError wrapping the original. -/
def handle_error (error : LowError) (operation : String) : PyExc :=
  match error with
  | .apiErr code details =>
      if code = "PGRST116" then
        PyExc.mk .notFoundError ("Resource not found during " ++ operation) none
      else
        match details with
        | some d =>
            match d.lookup "code" with
            | some pg =>
                PyExc.mk ((ERROR_CODES.lookup pg).getD .databaseError)
                  ("Database error during " ++ operation ++ ": " ++
                    ((d.lookup "message").getD "None"))
                  (some (LowError.asExc (.apiErr code details)))
            | none =>
                PyExc.mk .databaseError
                  ("Unexpected error during " ++ operation)
                  (some (LowError.asExc (.apiErr code details)))
        | none =>
            PyExc.mk .databaseError ("Unexpected error during " ++ operation)
              (some (LowError.asExc (.apiErr code details)))
  | .typed e => e
  | .other m =>
      PyExc.mk .databaseError ("Unexpected error during " ++ operation)
        (some (PyExc.mk .transportError m none))

theorem applyFilter_allowed {op : String} (h : op ∈ ALLOWED_OPERATORS)
    (steps : List FilterStep) (c : String) (v : PyValue) :
    ∃ s, applyFilter steps c op v = .ok (steps ++ [s]) := by
  simp [ALLOWED_OPERATORS] at h
  rcases h with h | h | h | h | h | h | h | h | h | h | h | h | h <;> subst h
  · exact ⟨FilterStep.opEq c v, rfl⟩
  · exact ⟨FilterStep.opNeq c v, rfl⟩
  · exact ⟨FilterStep.opGt c v, rfl⟩
  · exact ⟨FilterStep.opGte c v, rfl⟩
  · exact ⟨FilterStep.opLt c v, rfl⟩
  · exact ⟨FilterStep.opLte c v, rfl⟩
  · exact ⟨FilterStep.opLike c v, rfl⟩
  · exact ⟨FilterStep.opIlike c v, rfl⟩
  · exact ⟨FilterStep.opIs c v, rfl⟩
  · exact ⟨FilterStep.opIn c v, rfl⟩
  · exact ⟨FilterStep.opContains c v, rfl⟩
  · exact ⟨FilterStep.opContainedBy c v, rfl⟩
  · exact ⟨FilterStep.opTextSearch c v, rfl⟩

theorem applyFilter_not_allowed {op : String} (h : op ∉ ALLOWED_OPERATORS)
    (steps : List FilterStep) (c : String) (v : PyValue) :
    applyFilter steps c op v = .error ("Unsupported operator: " ++ op) := by
  simp [ALLOWED_OPERATORS] at h
  obtain ⟨h1, h2, h3, h4, h5, h6, h7, h8, h9, h10, h11, h12, h13⟩ := h
  simp [applyFilter, h1, h2, h3, h4, h5, h6, h7, h8, h9, h10, h11, h12, h13]

theorem applyFilters_all_allowed (filters : List (String × String × PyValue))
    (h : ∀ f ∈ filters, f.2.1 ∈ ALLOWED_OPERATORS) (steps : List FilterStep) :
    ∃ steps', applyFilters steps filters = .ok steps' := by
  induction filters generalizing steps with
  | nil => exact ⟨steps, rfl⟩
  | cons f rest ih =>
      obtain ⟨c, op, v⟩ := f
      obtain ⟨s, hs⟩ := applyFilter_allowed (h (c, op, v) (by simp)) steps c v
      obtain ⟨steps', hsteps'⟩ :=
        ih (fun g hg => h g (by simp [hg])) (steps ++ [s])
      exact ⟨steps', by simp [applyFilters, hs, hsteps']⟩

theorem applyFilters_first_bad (pre : List (String × String × PyValue))
    (hpre : ∀ f ∈ pre, f.2.1 ∈ ALLOWED_OPERATORS)
    {op : String} (hop : op ∉ ALLOWED_OPERATORS)
    (c : String) (v : PyValue) (post : List (String × String × PyValue))
    (steps : List FilterStep) :
    applyFilters steps (pre ++ (c, op, v) :: post)
      = .error ("Unsupported operator: " ++ op) := by
  induction pre generalizing steps with
  | nil => simp [applyFilters, applyFilter_not_allowed hop]
  | cons f rest ih =>
      obtain ⟨c', op', v'⟩ := f
      obtain ⟨s, hs⟩ :=
        applyFilter_allowed (hpre (c', op', v') (by simp)) steps c' v'
      simpa [applyFilters, hs] using
        ih (fun g hg => hpre g (by simp [hg])) (steps ++ [s])

theorem applyFiltersDelete_all_eq (filters : List (String × String × PyValue))
    (h : ∀ f ∈ filters, f.2.1 = "eq") (steps : List FilterStep) :
    ∃ steps', applyFiltersDelete steps filters = .ok steps' := by
  induction filters generalizing steps with
  | nil => exact ⟨steps, rfl⟩
  | cons f rest ih =>
      obtain ⟨c, op, v⟩ := f
      have hop : op = "eq" := h (c, op, v) (by simp)
      subst hop
      obtain ⟨steps', hsteps'⟩ :=
        ih (fun g hg => h g (by simp [hg])) (steps ++ [.opEq c v])
      exact ⟨steps', by simp [applyFiltersDelete, applyFilterDelete, hsteps']⟩

/-- C1: for a select with a column-list selector, earlier filters with
allowed operators, and a filter whose operator is outside the allow-list,
the call raises a SupabaseQueryError whose chained original_error is a
ValueError identifying the offending operator, and no network call is
issued. -/
theorem c1_unsupported_op_raises_wrapped_value_error
    (exec : SelectQuery → ExecOutcome (Option SelectResp))
    (table : String) (cols : List String) (c op : String) (v : PyValue)
    (pre post : List (String × String × PyValue))
    (htable : stripEmpty table = false)
    (hpre : ∀ f ∈ pre, f.2.1 ∈ ALLOWED_OPERATORS)
    (hop : op ∉ ALLOWED_OPERATORS) :
    select_from_table exec table (Fields.cols cols)
        (pre ++ (c, op, v) :: post)
      = (.error (PyExc.mk .queryError
          ("Failed to select from table " ++ table)
          (some (PyExc.mk .valueError ("Unsupported operator: " ++ op) none))),
         false) := by
  have hbuild : buildSelectQuery table (Fields.cols cols)
      (pre ++ (c, op, v) :: post)
      = .error ("Unsupported operator: " ++ op) := by
    simp [buildSelectQuery, applyFilters_first_bad pre hpre hop c v post]
  simp [select_from_table, htable, hbuild]

theorem c1_unsupported_op_raises_wrapped_value_error_witness :
    select_from_table (fun _ => .returns none) "t" (Fields.cols ["id"])
        [("c", "bogus", PyValue.pstr "x")]
      = (.error (PyExc.mk .queryError "Failed to select from table t"
          (some (PyExc.mk .valueError "Unsupported operator: bogus" none))),
         false) := by
  have h := c1_unsupported_op_raises_wrapped_value_error
    (fun _ => .returns none) "t" ["id"] "c" "bogus" (PyValue.pstr "x") [] []
    (by decide) (by intro f hf; cases hf) (by decide)
  simpa using h

/-- C1 counterexample: the exception actually raised for an unsupported
operator is of SupabaseQueryError kind, not a ValidationError. -/
theorem c1_unsupported_op_not_validation_error :
    ((select_from_table (fun _ => .returns none) "t" (Fields.cols ["id"])
        [("c", "bogus", PyValue.pstr "x")]).1
      = .error (PyExc.mk ErrKind.queryError "Failed to select from table t"
          (some (PyExc.mk ErrKind.valueError "Unsupported operator: bogus"
            none))))
    ∧ ErrKind.queryError ≠ ErrKind.validationError :=
  ⟨rfl, by decide⟩

/-- C2 (amended): each of the thirteen operators of the source's chain
compiles to exactly one backend primitive in select and update; the six
range and overlap operators of the claim are absent from the chain and
raise; the delete chain supports only eq and raises for any other
operator. -/
theorem c2_operator_support :
    (∀ op ∈ ALLOWED_OPERATORS,
      ∀ (steps : List FilterStep) (c : String) (v : PyValue),
        ∃ s, applyFilter steps c op v = .ok (steps ++ [s]))
    ∧ (∀ op ∈ (["range_lt", "range_lte", "range_gt", "range_gte",
          "range_adjacent", "overlaps"] : List String),
        ∀ (steps : List FilterStep) (c : String) (v : PyValue),
          applyFilter steps c op v = .error ("Unsupported operator: " ++ op))
    ∧ (∀ (steps : List FilterStep) (c : String) (v : PyValue),
        applyFilterDelete steps c "eq" v = .ok (steps ++ [.opEq c v]))
    ∧ (∀ op : String, ¬op = "eq" →
        ∀ (steps : List FilterStep) (c : String) (v : PyValue),
          applyFilterDelete steps c op v
            = .error ("Unsupported operator: " ++ op)) := by
  refine ⟨fun op h steps c v => applyFilter_allowed h steps c v, ?_, ?_, ?_⟩
  · intro op h steps c v
    fin_cases h <;> rfl
  · intro steps c v
    rfl
  · intro op h steps c v
    simp [applyFilterDelete, h]

theorem c2_operator_support_witness :
    (∃ s, applyFilter [] "c" "eq" PyValue.pnone = .ok ([] ++ [s]))
    ∧ applyFilter [] "c" "range_lt" PyValue.pnone
        = .error ("Unsupported operator: " ++ "range_lt")
    ∧ applyFilterDelete [] "c" "eq" PyValue.pnone
        = .ok ([] ++ [FilterStep.opEq "c" PyValue.pnone])
    ∧ applyFilterDelete [] "c" "neq" PyValue.pnone
        = .error ("Unsupported operator: " ++ "neq") :=
  ⟨c2_operator_support.1 "eq" (by decide) [] "c" PyValue.pnone,
   c2_operator_support.2.1 "range_lt" (by decide) [] "c" PyValue.pnone,
   c2_operator_support.2.2.1 [] "c" PyValue.pnone,
   c2_operator_support.2.2.2 "neq" (by decide) [] "c" PyValue.pnone⟩

/-- C2 counterexample: the claimed operator range_lt is rejected by
select_from_table, so the nineteen-operator claim fails on the code. -/
theorem c2_range_lt_unsupported :
    (select_from_table (fun _ => .returns none) "t" (Fields.cols ["id"])
        [("c", "range_lt", PyValue.pint 0)]).1
      = .error (PyExc.mk ErrKind.queryError "Failed to select from table t"
          (some (PyExc.mk ErrKind.valueError
            "Unsupported operator: range_lt" none))) :=
  rfl

/-- C3: with the all-columns sentinel, where_filters are never applied:
the built query is the unfiltered star select, and the call's result is
identical to the same call with the filters omitted. -/
theorem c3_star_ignores_filters
    (exec : SelectQuery → ExecOutcome (Option SelectResp))
    (table : String) (filters : List (String × String × PyValue)) :
    buildSelectQuery table Fields.star filters
        = .ok ⟨table, "*", []⟩
    ∧ select_from_table exec table Fields.star filters
        = select_from_table exec table Fields.star [] :=
  ⟨rfl, rfl⟩

/-- C4: with non-empty arguments, every login failure (transport raise,
falsy response, user-less response) yields an AuthenticationError and
leaves the session attribute unchanged; the call never returns false; a
response with a user returns true and installs the response's session,
which is non-null whenever the response carries one. -/
theorem c4_login_contract (st : Option String) (email password : String)
    (he : ¬email = "") (hp : ¬password = "") :
    (∀ m, (login (.raises m) st email password).2 = st
        ∧ ∃ e, (login (.raises m) st email password).1 = .error e
            ∧ e.kind = ErrKind.authenticationError)
    ∧ ((login (.returns none) st email password).2 = st
        ∧ ∃ e, (login (.returns none) st email password).1 = .error e
            ∧ e.kind = ErrKind.authenticationError)
    ∧ (∀ r : AuthResponse, r.user = none →
        (login (.returns (some r)) st email password).2 = st
        ∧ ∃ e, (login (.returns (some r)) st email password).1 = .error e
            ∧ e.kind = ErrKind.authenticationError)
    ∧ (∀ (r : AuthResponse) (u : String), r.user = some u →
        login (.returns (some r)) st email password = (.ok true, r.session))
    ∧ (∀ exec : ExecOutcome (Option AuthResponse),
        ¬(login exec st email password).1 = .ok false) := by
  have hcond : ¬(email = "" ∨ password = "") := by
    rintro (h | h)
    · exact he h
    · exact hp h
  refine ⟨?_, ?_, ?_, ?_, ?_⟩
  · intro m
    refine ⟨by simp [login, hcond], ?_⟩
    exact ⟨PyExc.mk .authenticationError "Authentication failed"
      (some (PyExc.mk .transportError m none)), by simp [login, hcond], rfl⟩
  · refine ⟨by simp [login, hcond], ?_⟩
    exact ⟨PyExc.mk .authenticationError "Authentication failed"
      (some (PyExc.mk .authenticationError
        "Login failed - invalid credentials" none)), by simp [login, hcond],
      rfl⟩
  · intro r hr
    refine ⟨by simp [login, hcond, hr], ?_⟩
    exact ⟨PyExc.mk .authenticationError "Authentication failed"
      (some (PyExc.mk .authenticationError
        "Login failed - invalid credentials" none)),
      by simp [login, hcond, hr], rfl⟩
  · intro r u hr
    simp [login, hcond, hr]
  · intro exec
    cases exec with
    | raises m => simp [login, hcond]
    | returns r =>
        cases r with
        | none => simp [login, hcond]
        | some a =>
            cases ha : a.user with
            | none => simp [login, hcond, ha]
            | some u => simp [login, hcond, ha]

theorem c4_login_contract_witness :
    login (.returns (some ⟨some "uid", some "tok"⟩)) none "user@example.com"
        "pw"
      = (.ok true, some "tok") := by
  have h := (c4_login_contract none "user@example.com" "pw" (by decide)
    (by decide)).2.2.2.1 ⟨some "uid", some "tok"⟩ "uid" rfl
  simpa using h

/-- C5 counterexample: a transport exception inside get_user is swallowed
and surfaces as a plain None return, and one inside create_search_index
surfaces as a plain False return; neither raises a typed exception. -/
theorem c5_get_user_swallows_exception :
    get_user (.raises "network unreachable") = .ok none
    ∧ create_search_index (.raises "permission denied") (.returns ())
        = .ok false :=
  ⟨rfl, rfl⟩

/-- C5 (amended): modeled operations such as select_from_table re-raise
transport exceptions as typed query errors, but get_user returns None on
any exception and create_search_index returns False on any exception in
either RPC call; those two never raise. -/
theorem c5_exception_swallowing (m : String) :
    (∀ exec : ExecOutcome (Option GetUserResp), ∃ r, get_user exec = .ok r)
    ∧ (∀ execAlter execIndex : ExecOutcome Unit,
        ∃ b, create_search_index execAlter execIndex = .ok b)
    ∧ get_user (.raises m) = .ok none
    ∧ (∀ execIndex : ExecOutcome Unit,
        create_search_index (.raises m) execIndex = .ok false)
    ∧ (∀ (table : String) (cols : List String)
        (filters : List (String × String × PyValue))
        (steps : List FilterStep),
        stripEmpty table = false →
        applyFilters [] filters = .ok steps →
        (select_from_table (fun _ => .raises m) table (Fields.cols cols)
            filters).1
          = .error (PyExc.mk .queryError
              ("Failed to select from table " ++ table)
              (some (PyExc.mk .transportError m none)))) := by
  refine ⟨?_, ?_, rfl, ?_, ?_⟩
  · intro exec
    cases exec with
    | raises m' => exact ⟨none, rfl⟩
    | returns r =>
        cases r with
        | none => exact ⟨none, rfl⟩
        | some g =>
            cases hg : g.userAttr with
            | none => exact ⟨none, by simp [get_user, hg]⟩
            | some u => exact ⟨u, by simp [get_user, hg]⟩
  · intro execAlter execIndex
    cases execAlter with
    | raises m' => exact ⟨false, rfl⟩
    | returns u =>
        cases execIndex with
        | raises m' => exact ⟨false, rfl⟩
        | returns u' => exact ⟨true, rfl⟩
  · intro execIndex
    rfl
  · intro table cols filters steps htable hsteps
    simp [select_from_table, buildSelectQuery, htable, hsteps]

theorem c5_exception_swallowing_witness :
    get_user (.raises "boom") = .ok none
    ∧ create_search_index (.raises "boom") (.returns ()) = .ok false
    ∧ (select_from_table (fun _ => .raises "boom") "t" (Fields.cols ["id"])
          []).1
        = .error (PyExc.mk .queryError "Failed to select from table t"
            (some (PyExc.mk .transportError "boom" none))) := by
  have h := c5_exception_swallowing "boom"
  refine ⟨h.2.2.1, h.2.2.2.1 (.returns ()), ?_⟩
  have h5 := h.2.2.2.2 "t" ["id"] [] [] (by decide) rfl
  simpa using h5

/-- C6 counterexample: a backend delete response whose data attribute is
an empty list (no rows matched the predicates) makes delete_from_table
return true, where the claim demands false. -/
theorem c6_delete_empty_data_returns_true :
    delete_from_table (fun _ => .returns (some ⟨some []⟩)) "t"
        [("id", "eq", PyValue.pint 1)]
      = (.ok true, true) :=
  rfl

/-- C6 (amended): delete_from_table's boolean is derived from the
response object being truthy and exposing a data attribute, regardless
of whether that attribute carries any rows; a falsy response gives
false; neither case raises; only a transport exception raises, as a
SupabaseQueryError. -/
theorem c6_delete_response_flag (table : String)
    (filters : List (String × String × PyValue))
    (h : ¬table = "") (hf : ∀ f ∈ filters, f.2.1 = "eq") :
    (∀ resp : Option DelResp,
        delete_from_table (fun _ => .returns resp) table filters
          = (.ok (resp.elim false (fun r => r.dataAttr.isSome)), true))
    ∧ (∀ m, (delete_from_table (fun _ => .raises m) table filters).1
          = .error (PyExc.mk .queryError "Failed to delete from table"
              (some (PyExc.mk .transportError m none)))) := by
  obtain ⟨steps, hsteps⟩ := applyFiltersDelete_all_eq filters hf []
  constructor
  · intro resp
    cases resp with
    | none => simp [delete_from_table, h, hsteps]
    | some r => simp [delete_from_table, h, hsteps]
  · intro m
    simp [delete_from_table, h, hsteps]

theorem c6_delete_response_flag_witness :
    delete_from_table (fun _ => .returns none) "t"
        [("id", "eq", PyValue.pint 1)]
      = (.ok false, true) := by
  have h := (c6_delete_response_flag "t" [("id", "eq", PyValue.pint 1)]
    (by decide) (by decide)).1 none
  simpa using h

/-- C7: map_storage_error always chains the input as original_error, and
the exception kind is chosen by case-insensitive substring match on the
message in the fixed order authentication, permission, quota, not found,
validation, first match wins, with the generic storage error as
fallback. -/
theorem c7_map_storage_error_classification (e : PyExc) :
    (map_storage_error e).original = some e
    ∧ ((map_storage_error e).kind = ErrKind.storageAuthError
        ↔ strContainsSub e.message.toLower "authentication" = true)
    ∧ ((map_storage_error e).kind = ErrKind.storagePermissionError
        ↔ strContainsSub e.message.toLower "authentication" = false
          ∧ strContainsSub e.message.toLower "permission" = true)
    ∧ ((map_storage_error e).kind = ErrKind.storageQuotaError
        ↔ strContainsSub e.message.toLower "authentication" = false
          ∧ strContainsSub e.message.toLower "permission" = false
          ∧ strContainsSub e.message.toLower "quota" = true)
    ∧ ((map_storage_error e).kind = ErrKind.storageNotFoundError
        ↔ strContainsSub e.message.toLower "authentication" = false
          ∧ strContainsSub e.message.toLower "permission" = false
          ∧ strContainsSub e.message.toLower "quota" = false
          ∧ strContainsSub e.message.toLower "not found" = true)
    ∧ ((map_storage_error e).kind = ErrKind.storageValidationError
        ↔ strContainsSub e.message.toLower "authentication" = false
          ∧ strContainsSub e.message.toLower "permission" = false
          ∧ strContainsSub e.message.toLower "quota" = false
          ∧ strContainsSub e.message.toLower "not found" = false
          ∧ strContainsSub e.message.toLower "validation" = true)
    ∧ ((map_storage_error e).kind = ErrKind.storageError
        ↔ strContainsSub e.message.toLower "authentication" = false
          ∧ strContainsSub e.message.toLower "permission" = false
          ∧ strContainsSub e.message.toLower "quota" = false
          ∧ strContainsSub e.message.toLower "not found" = false
          ∧ strContainsSub e.message.toLower "validation" = false) := by
  unfold map_storage_error
  split_ifs with h1 h2 h3 h4 h5 <;>
    simp_all [PyExc.kind, PyExc.original]

/-- C8 (amended): BaseService.handle_error passes any exception already
in the typed hierarchy through unchanged, but the facade's login catches
its own inner typed AuthenticationError and re-wraps it in a second
AuthenticationError that carries the inner one as original_error. -/
theorem c8_typed_passthrough_and_rewrap :
    (∀ (e : PyExc) (operation : String),
        handle_error (LowError.typed e) operation = e)
    ∧ (login (.returns none) none "user@example.com" "pw").1
        = .error (PyExc.mk ErrKind.authenticationError "Authentication failed"
            (some (PyExc.mk ErrKind.authenticationError
              "Login failed - invalid credentials" none))) :=
  ⟨fun _ _ => rfl, rfl⟩

/-- C8 counterexample: the exception login propagates for a falsy auth
response is not the typed exception raised inside the operation; it is a
second typed exception wrapping the first, so an already-typed exception
does not pass through unchanged. -/
theorem c8_login_rewraps_typed_error :
    ((login (.returns none) none "user@example.com" "pw").1
      = .error (PyExc.mk ErrKind.authenticationError "Authentication failed"
          (some (PyExc.mk ErrKind.authenticationError
            "Login failed - invalid credentials" none))))
    ∧ ¬(PyExc.mk ErrKind.authenticationError "Authentication failed"
          (some (PyExc.mk ErrKind.authenticationError
            "Login failed - invalid credentials" none))
        = PyExc.mk ErrKind.authenticationError
            "Login failed - invalid credentials" none) := by
  refine ⟨rfl, ?_⟩
  intro h
  injection h with h1 h2 h3
  exact absurd h2 (by decide)

/-- C10: serialize_data preserves the key sequence, rewrites every
boolean value to the lowercase literal text true or false, leaves every
non-boolean value unchanged, and update_table's behavior depends on the
backend only through calls whose payload is exactly the serialized
update fields. -/
theorem c10_serialize_data_spec :
    (∀ data : List (String × PyValue),
        (serialize_data data).map Prod.fst = data.map Prod.fst)
    ∧ (∀ (data : List (String × PyValue)) (k : String) (b : Bool),
        (k, PyValue.pbool b) ∈ data →
        (k, PyValue.pstr (if b then "true" else "false"))
          ∈ serialize_data data)
    ∧ (∀ (data : List (String × PyValue)) (k : String) (v : PyValue),
        (k, v) ∈ data → (∀ b : Bool, ¬v = PyValue.pbool b) →
        (k, v) ∈ serialize_data data)
    ∧ (∀ (exec exec' : UpdateCall → ExecOutcome (List Row))
        (table : String) (fields : List (String × PyValue))
        (filters : List (String × String × PyValue)),
        (∀ call : UpdateCall, call.payload = serialize_data fields →
          exec call = exec' call) →
        update_table exec table fields filters
          = update_table exec' table fields filters) := by
  refine ⟨?_, ?_, ?_, ?_⟩
  · intro data
    induction data with
    | nil => rfl
    | cons kv rest ih =>
        obtain ⟨k, v⟩ := kv
        simp [serialize_data, ih]
  · intro data k b hmem
    induction data with
    | nil => cases hmem
    | cons kv rest ih =>
        rcases List.mem_cons.mp hmem with h | h
        · subst h
          simp [serialize_data]
        · obtain ⟨k', v'⟩ := kv
          simp [serialize_data]
          exact Or.inr (by simpa using ih h)
  · intro data k v hmem hv
    induction data with
    | nil => cases hmem
    | cons kv rest ih =>
        rcases List.mem_cons.mp hmem with h | h
        · subst h
          cases v with
          | pbool b => exact absurd rfl (hv b)
          | pstr s => simp [serialize_data]
          | pint n => simp [serialize_data]
          | pnone => simp [serialize_data]
        · obtain ⟨k', v'⟩ := kv
          simp [serialize_data]
          exact Or.inr (by simpa using ih h)
  · intro exec exec' table fields filters hagree
    unfold update_table
    by_cases ht : table = ""
    · simp [ht]
    · simp only [ht, if_false]
      cases hfs : applyFilters [] filters with
      | error m => rfl
      | ok steps =>
          dsimp only
          rw [hagree ⟨table, serialize_data fields, steps⟩ rfl]

theorem c10_serialize_data_spec_witness :
    ((serialize_data [("flag", PyValue.pbool true), ("n", PyValue.pint 3)]).map
        Prod.fst
      = [("flag", PyValue.pbool true), ("n", PyValue.pint 3)].map Prod.fst)
    ∧ ("flag", PyValue.pstr (if true then "true" else "false"))
        ∈ serialize_data [("flag", PyValue.pbool true), ("n", PyValue.pint 3)]
    ∧ ("n", PyValue.pint 3)
        ∈ serialize_data [("flag", PyValue.pbool true), ("n", PyValue.pint 3)]
    ∧ update_table (fun _ => .returns []) "t"
          [("flag", PyValue.pbool true)] []
        = update_table (fun _ => .returns []) "t"
            [("flag", PyValue.pbool true)] [] :=
  ⟨c10_serialize_data_spec.1 [("flag", PyValue.pbool true),
      ("n", PyValue.pint 3)],
   c10_serialize_data_spec.2.1 [("flag", PyValue.pbool true),
      ("n", PyValue.pint 3)] "flag" true (by decide),
   c10_serialize_data_spec.2.2.1 [("flag", PyValue.pbool true),
      ("n", PyValue.pint 3)] "n" (PyValue.pint 3) (by decide) (by decide),
   c10_serialize_data_spec.2.2.2 (fun _ => .returns []) (fun _ => .returns [])
      "t" [("flag", PyValue.pbool true)] [] (fun _ _ => rfl)⟩

end DSV
